import Mathlib

/-!
Verification of the training-step orchestration of `TDGANMultiDModel`
(`src/models/TDGAN_multiD_model.py`), a lifelong-learning pix2pix-style
GAN trainer with a frozen previous-task generator.

Shallow embedding, design notes:

* Image tensors are modelled as single exact integers (`ℤ`).  Gradient flow
  is modelled with forward-mode dual numbers: a tensor value `T` carries its
  value together with its partial derivatives with respect to the four
  trainable scalar parameters of the model (the trainable generator weight
  `wG`, the frozen previous-task generator weight `wGprev`, and the two
  discriminator weights `vD0`, `vD1`).  `tensor.detach()` zeroes all
  derivative slots; `requires_grad = False` on a discriminator drops the
  parameter's own derivative contribution at forward (graph-building) time,
  exactly as autograd does.  `loss.backward()` accumulates the loss value's
  derivative slots into the `.grad` accumulators of the state.
* The generator is an external collaborator (`networks.define_G`); it is
  modelled as the one-parameter linear map `x ↦ w * x`, which is the minimal
  differentiable network with a trainable parameter.  Likewise the
  discriminator is `pair ↦ v * (pair.fst + pair.snd)` applied to the
  concatenated conditioning pair.
* Python attributes that are conditionally assigned (`loss_reminding_*`)
  are modelled as `Option`-valued state fields, `none` standing for an
  attribute that was never assigned.
* Every network evaluation and optimizer step appends an event to a trace,
  used to settle the ordering claims about `optimize_parameters`.
-/

namespace TDGAN

/-- Dual-number scalar: the value of a (toy, scalar) tensor together with its
partial derivatives with respect to the four trainable parameters
`wG`, `wGprev`, `vD0`, `vD1`. -/
structure T where
  val : ℤ
  dwG : ℤ
  dwGp : ℤ
  dv0 : ℤ
  dv1 : ℤ
  deriving Repr, DecidableEq

/-- Constant tensor (an input image, or any value with no parameter
dependence). -/
def constT (c : ℤ) : T := ⟨c, 0, 0, 0, 0⟩

/-- Zero tensor. -/
def Tzero : T := constT 0

/-- Pointwise (tensor) addition; derivatives add. -/
def Tadd (a b : T) : T :=
  ⟨a.val + b.val, a.dwG + b.dwG, a.dwGp + b.dwGp, a.dv0 + b.dv0, a.dv1 + b.dv1⟩

/-- Multiplication of a tensor by a python float (a loss weight such as
`opt.lambda_G`); weights carry no gradient. -/
def Tsmul (c : ℤ) (a : T) : T :=
  ⟨c * a.val, c * a.dwG, c * a.dwGp, c * a.dv0, c * a.dv1⟩

/-- Model of `tensor.detach()`: same value, cut out of the autograd graph
(all derivative slots zero). -/
def detach (a : T) : T := constT a.val

/-- Sign function used for the derivative of `|x|` (PyTorch uses slope 0 at
the kink). -/
def intSign (x : ℤ) : ℤ := if 0 < x then 1 else if x < 0 then -1 else 0

/-- Model of `torch.nn.L1Loss()` on scalar tensors: `|a - b|`, with the
autograd derivative `sign (a - b) * (da - db)`. -/
def criterionL1 (a b : T) : T :=
  ⟨|a.val - b.val|,
   intSign (a.val - b.val) * (a.dwG - b.dwG),
   intSign (a.val - b.val) * (a.dwGp - b.dwGp),
   intSign (a.val - b.val) * (a.dv0 - b.dv0),
   intSign (a.val - b.val) * (a.dv1 - b.dv1)⟩

/-- Modelled from the spec: the adversarial loss function
(`networks.GANLoss`, an external collaborator whose code is out of scope) —
given a prediction and a boolean real/fake target label it returns a scalar
loss.  We take the concrete differentiable representative
`(pred - target)^2` (least-squares form), `target = 1` for REAL and `0` for
FAKE. -/
def criterionGAN (pred : T) (targetIsReal : Bool) : T :=
  ⟨(pred.val - (if targetIsReal then 1 else 0)) * (pred.val - (if targetIsReal then 1 else 0)),
   2 * (pred.val - (if targetIsReal then 1 else 0)) * pred.dwG,
   2 * (pred.val - (if targetIsReal then 1 else 0)) * pred.dwGp,
   2 * (pred.val - (if targetIsReal then 1 else 0)) * pred.dv0,
   2 * (pred.val - (if targetIsReal then 1 else 0)) * pred.dv1⟩

/-- Modelled from the spec: the fixed pretrained perceptual feature
extractor (`vgg16_feat`, an external collaborator).  A fixed linear feature
map with no trainable parameters of its own; gradient passes through. -/
def vgg_model (x : T) : T := Tsmul 2 x

/-- Modelled from the spec: the perceptual distance (`perceptual_loss`, an
external collaborator) — a scalar distance between two feature tensors.
Concrete representative: squared distance, with its autograd derivative. -/
def criterion_perceptual (f1 f2 : T) : T :=
  ⟨(f1.val - f2.val) * (f1.val - f2.val),
   2 * (f1.val - f2.val) * (f1.dwG - f2.dwG),
   2 * (f1.val - f2.val) * (f1.dwGp - f2.dwGp),
   2 * (f1.val - f2.val) * (f1.dv0 - f2.dv0),
   2 * (f1.val - f2.val) * (f1.dv1 - f2.dv1)⟩

/-- Model of a concatenated conditioning pair `torch.cat((a, b), 1)`: the
discriminator receives both halves. -/
structure PairT where
  pa : T
  pb : T
  deriving Repr, DecidableEq

/-- Build the conditioning pair (`torch.cat`). -/
def catT (a b : T) : PairT := ⟨a, b⟩

/-- Detach a concatenated pair (`fake_AB.detach()` detaches the whole
concatenation, hence both halves). -/
def detachP (p : PairT) : PairT := ⟨detach p.pa, detach p.pb⟩

/-- The trainable generator `netG` (external `networks.define_G`): modelled
as the linear map `x ↦ wG * x`.  `wG` always requires grad, so the output
carries the derivative slot for `wG`. -/
def applyNetG (w : ℤ) (x : T) : T :=
  ⟨w * x.val, x.val + w * x.dwG, w * x.dwGp, w * x.dv0, w * x.dv1⟩

/-- The previous-task generator `netG_prev`: same architecture, its own
parameter `wGprev`.  `define_G` leaves `requires_grad = True` (nothing in
the model toggles it), so its output carries the derivative slot for
`wGprev`. -/
def applyNetGprev (w : ℤ) (x : T) : T :=
  ⟨w * x.val, w * x.dwG, x.val + w * x.dwGp, w * x.dv0, w * x.dv1⟩

/-- Discriminator `netD[p]` (external `networks.define_D`): modelled as
`pair ↦ v * (pa + pb)`.  If `rg` (its `requires_grad` flag, toggled by
`set_requires_grad`) is false at forward time, the parameter's own
derivative contribution is dropped, exactly as autograd builds no edge to a
non-requiring leaf; gradient still flows through to the inputs. -/
def applyNetD (p : ℕ) (v : ℤ) (rg : Bool) (ab : PairT) : T :=
  ⟨v * (ab.pa.val + ab.pb.val),
   v * (ab.pa.dwG + ab.pb.dwG),
   v * (ab.pa.dwGp + ab.pb.dwGp),
   v * (ab.pa.dv0 + ab.pb.dv0) + (if rg = true ∧ p = 0 then ab.pa.val + ab.pb.val else 0),
   v * (ab.pa.dv1 + ab.pb.dv1) + (if rg = true ∧ p = 1 then ab.pa.val + ab.pb.val else 0)⟩

/-- The command-line options of `TDGANMultiDModel` that the training step
reads (`modify_commandline_options` and `BaseOptions`). -/
structure Opt where
  task_num : ℕ
  no_lifelong_training : Bool
  isTrain : Bool
  prev_model_path : String
  prev_model_epoch : ℕ
  lambda_digesting_L1 : ℤ
  lambda_digesting_perceptual : ℤ
  lambda_reminding_L1 : ℤ
  lambda_reminding_perceptual : ℤ
  lambda_G : ℤ
  lambda_D : ℤ
  lr : ℤ
  deriving Repr, DecidableEq

/-- Events recorded while a training step runs: generator forward,
previous-generator forward, discriminator forward, discriminator optimizer
step, generator optimizer step. -/
inductive Ev
  | gfwd (i : ℕ)
  | gpfwd (i : ℕ)
  | dfwd (p : ℕ)
  | dstep (p : ℕ)
  | gstep
  deriving Repr, DecidableEq

/-- The mutable state of a `TDGANMultiDModel` instance during training:
network parameters, their gradient accumulators, the discriminators'
`requires_grad` flag, the current batch (`set_input`), the tensors stored
by `forward`, the loss attributes, and the event trace. -/
structure MState where
  opt : Opt
  wG : ℤ
  wGprev : ℤ
  vD0 : ℤ
  vD1 : ℤ
  gradWG : ℤ
  gradWGprev : ℤ
  gradV0 : ℤ
  gradV1 : ℤ
  rgD : Bool
  real_A : ℕ → ℤ
  real_B : ℕ → ℤ
  fake_B : List T
  fake_B_curG : List T
  fake_B_prevG : List T
  loss_reminding_L1 : Option (List T)
  loss_reminding_perceptual : Option (List T)
  loss_reminding_L1_all : Option T
  loss_reminding_perceptual_all : Option T
  loss_G_GAN_all : Option T
  loss_G_L1_all : Option T
  loss_G_perceptual_all : Option T
  loss_D_fake_all : Option T
  loss_D_real_all : Option T
  loss_G : T
  loss_D : T
  trace : List Ev

/-- Current-task stream indices: `range(2*task_num - 2, 2*task_num)`. -/
def curIdx (t : ℕ) : List ℕ := List.range' (2 * t - 2) 2

/-- Previous-task stream indices: `range(0, 2*task_num - 2)`. -/
def prevIdx (t : ℕ) : List ℕ := List.range (2 * t - 2)

/-- One step of the nullable-then-add accumulation pattern: a `None`
sentinel is replaced by the first loss, later losses are added. -/
def accStep (acc : Option T) (x : T) : Option T :=
  match acc with
  | none => some x
  | some a => some (Tadd a x)

/-- The nullable-then-add accumulation used for every `*_all` loss
(lines 195-203, 225-236, 248-256). -/
def sumLosses (l : List T) : Option T := l.foldl accStep none

/-- Plain left fold sum of a list of loss tensors (the clean form the
accumulation pattern is proved to equal). -/
def listSumT (l : List T) : T := l.foldl Tadd Tzero

/-- Model of `TDGANMultiDModel.forward` (lines 157-178): run `netG` on the
two current-task inputs; if `task_num > 1` and lifelong training is not
disabled, additionally run both `netG` and `netG_prev` on every
previous-task input.  Note that the `netG_prev` outputs are NOT detached by
the source. -/
def forwardM (s : MState) : MState :=
  let t := s.opt.task_num
  let fakeB := (curIdx t).map (fun i => applyNetG s.wG (constT (s.real_A i)))
  let tr1 := (curIdx t).map (fun i => Ev.gfwd i)
  if 1 < t ∧ s.opt.no_lifelong_training = false then
    let curG := (prevIdx t).map (fun i => applyNetG s.wG (constT (s.real_A i)))
    let prevG := (prevIdx t).map (fun i => applyNetGprev s.wGprev (constT (s.real_A i)))
    let tr2 := (prevIdx t).flatMap (fun i => [Ev.gfwd i, Ev.gpfwd i])
    { s with fake_B := fakeB, fake_B_curG := curG, fake_B_prevG := prevG,
             trace := s.trace ++ tr1 ++ tr2 }
  else
    { s with fake_B := fakeB, trace := s.trace ++ tr1 }

/-- Selection of a discriminator's weight, `self.netD[p]`. -/
def vsel (s : MState) (p : ℕ) : ℤ := if p = 0 then s.vD0 else s.vD1

/-- One fake-pair discriminator loss term of `backward_D` (lines 186-189):
`criterionGAN(netD[i % 2](cat(real_A[i], fake_B[i % 2]).detach()), False)`. -/
def fakeDTerm (s : MState) (i : ℕ) : T :=
  criterionGAN
    (applyNetD (i % 2) (vsel s (i % 2)) s.rgD
      (detachP (catT (constT (s.real_A i)) (s.fake_B.getD (i % 2) Tzero))))
    false

/-- One real-pair discriminator loss term of `backward_D` (lines 190-193):
`criterionGAN(netD[i % 2](cat(real_A[i], real_B[i])), True)`. -/
def realDTerm (s : MState) (i : ℕ) : T :=
  criterionGAN
    (applyNetD (i % 2) (vsel s (i % 2)) s.rgD
      (catT (constT (s.real_A i)) (constT (s.real_B i))))
    true

/-- One generator adversarial loss term of `backward_G` (lines 217-219):
the fake pair is NOT detached here, so gradient flows to the generator. -/
def ganTerm (s : MState) (i : ℕ) : T :=
  criterionGAN
    (applyNetD (i % 2) (vsel s (i % 2)) s.rgD
      (catT (constT (s.real_A i)) (s.fake_B.getD (i % 2) Tzero)))
    true

/-- One generator L1 (digesting) loss term of `backward_G` (line 220). -/
def l1Term (s : MState) (i : ℕ) : T :=
  criterionL1 (s.fake_B.getD (i % 2) Tzero) (constT (s.real_B i))

/-- One generator perceptual (digesting) loss term of `backward_G`
(lines 221-223). -/
def percTerm (s : MState) (i : ℕ) : T :=
  criterion_perceptual (vgg_model (s.fake_B.getD (i % 2) Tzero))
    (vgg_model (constT (s.real_B i)))

/-- One reminding L1 (retention) loss term of `backward_G` (line 243):
L1 between the trainable generator's and the frozen generator's outputs on
the same previous-task input. -/
def remL1Term (s : MState) (i : ℕ) : T :=
  criterionL1 (s.fake_B_curG.getD i Tzero) (s.fake_B_prevG.getD i Tzero)

/-- One reminding perceptual (retention) loss term of `backward_G`
(lines 244-246). -/
def remPercTerm (s : MState) (i : ℕ) : T :=
  criterion_perceptual (vgg_model (s.fake_B_curG.getD i Tzero))
    (vgg_model (s.fake_B_prevG.getD i Tzero))

/-- Model of `TDGANMultiDModel.backward_D` (lines 180-207): per
current-task stream, a fake-pair loss (on the detached pair, label FAKE)
and a real-pair loss (label REAL), each classified by discriminator
`i % 2`; accumulate with the nullable pattern; total
`loss_D = (fake_all + real_all) * lambda_D`; then `loss_D.backward()`
accumulates the gradients.  The `.getD Tzero` unwraps an accumulator that
is always `some` here (the current-task index list has two elements). -/
def backward_DM (s : MState) : MState :=
  let t := s.opt.task_num
  let lossFake := (curIdx t).map (fun i => fakeDTerm s i)
  let lossReal := (curIdx t).map (fun i => realDTerm s i)
  let fakeAll := (sumLosses lossFake).getD Tzero
  let realAll := (sumLosses lossReal).getD Tzero
  let lossD := Tsmul s.opt.lambda_D (Tadd fakeAll realAll)
  { s with
    loss_D_fake_all := sumLosses lossFake,
    loss_D_real_all := sumLosses lossReal,
    loss_D := lossD,
    gradWG := s.gradWG + lossD.dwG,
    gradWGprev := s.gradWGprev + lossD.dwGp,
    gradV0 := s.gradV0 + lossD.dv0,
    gradV1 := s.gradV1 + lossD.dv1,
    trace := s.trace ++ (curIdx t).flatMap (fun i => [Ev.dfwd (i % 2), Ev.dfwd (i % 2)]) }

/-- Model of `TDGANMultiDModel.backward_G` (lines 209-263): current-task
adversarial, L1 and perceptual terms; if `task_num > 1` and lifelong
training is not disabled, the reminding (retention) terms over every
previous-task stream; composition of `loss_G` by the documented weighted
sum; `loss_G.backward()` accumulates the gradients.  When the final branch
reads a reminding accumulator that this call did not assign, the stored
attribute is used (`.getD Tzero` models the absent-attribute case, which
only arises for `task_num = 0`, outside the `task_num ≥ 1` invariant). -/
def backward_GM (s : MState) : MState :=
  let t := s.opt.task_num
  let gan := (curIdx t).map (fun i => ganTerm s i)
  let l1s := (curIdx t).map (fun i => l1Term s i)
  let percs := (curIdx t).map (fun i => percTerm s i)
  let ganAll := (sumLosses gan).getD Tzero
  let l1All := (sumLosses l1s).getD Tzero
  let percAll := (sumLosses percs).getD Tzero
  let remL1 : Option (List T) :=
    if 1 < t ∧ s.opt.no_lifelong_training = false then
      some ((prevIdx t).map (fun i => remL1Term s i))
    else s.loss_reminding_L1
  let remPerc : Option (List T) :=
    if 1 < t ∧ s.opt.no_lifelong_training = false then
      some ((prevIdx t).map (fun i => remPercTerm s i))
    else s.loss_reminding_perceptual
  let remL1All : Option T :=
    if 1 < t ∧ s.opt.no_lifelong_training = false then
      sumLosses ((prevIdx t).map (fun i => remL1Term s i))
    else s.loss_reminding_L1_all
  let remPercAll : Option T :=
    if 1 < t ∧ s.opt.no_lifelong_training = false then
      sumLosses ((prevIdx t).map (fun i => remPercTerm s i))
    else s.loss_reminding_perceptual_all
  let lossG :=
    if t = 1 ∨ s.opt.no_lifelong_training = true then
      Tsmul s.opt.lambda_G
        (Tadd (Tadd ganAll (Tsmul s.opt.lambda_digesting_L1 l1All))
          (Tsmul s.opt.lambda_digesting_perceptual percAll))
    else
      Tsmul s.opt.lambda_G
        (Tadd (Tadd (Tadd (Tadd ganAll (Tsmul s.opt.lambda_digesting_L1 l1All))
          (Tsmul s.opt.lambda_digesting_perceptual percAll))
          (Tsmul s.opt.lambda_reminding_L1 (remL1All.getD Tzero)))
          (Tsmul s.opt.lambda_reminding_perceptual (remPercAll.getD Tzero)))
  { s with
    loss_G_GAN_all := sumLosses gan,
    loss_G_L1_all := sumLosses l1s,
    loss_G_perceptual_all := sumLosses percs,
    loss_reminding_L1 := remL1,
    loss_reminding_perceptual := remPerc,
    loss_reminding_L1_all := remL1All,
    loss_reminding_perceptual_all := remPercAll,
    loss_G := lossG,
    gradWG := s.gradWG + lossG.dwG,
    gradWGprev := s.gradWGprev + lossG.dwGp,
    gradV0 := s.gradV0 + lossG.dv0,
    gradV1 := s.gradV1 + lossG.dv1,
    trace := s.trace ++ (curIdx t).map (fun i => Ev.dfwd (i % 2)) }

/-- The discriminator half of `optimize_parameters` (lines 268-273):
enable `requires_grad` for both discriminators, zero the discriminator
optimizers' gradients, run `backward_D`, and step each discriminator
optimizer.  The optimizer step is modelled as a gradient-descent update;
what the claims depend on is which parameters each optimizer owns
(`optimizer_D[p]` owns exactly `netD[p]`'s parameters). -/
def dPhase (s : MState) : MState :=
  let s1 := { s with rgD := true, gradV0 := 0, gradV1 := 0 }
  let s2 := backward_DM s1
  { s2 with vD0 := s2.vD0 - s2.opt.lr * s2.gradV0,
            vD1 := s2.vD1 - s2.opt.lr * s2.gradV1,
            trace := s2.trace ++ [Ev.dstep 0, Ev.dstep 1] }

/-- The generator half of `optimize_parameters` (lines 275-278): disable
`requires_grad` for both discriminators, zero the generator optimizer's
gradients (`optimizer_G` owns exactly `netG`'s parameters — in particular
it does NOT zero or step `netG_prev`'s gradient accumulator), run
`backward_G`, and step the generator optimizer. -/
def gPhase (s : MState) : MState :=
  let s1 := { s with rgD := false, gradWG := 0 }
  let s2 := backward_GM s1
  { s2 with wG := s2.wG - s2.opt.lr * s2.gradWG,
            trace := s2.trace ++ [Ev.gstep] }

/-- Model of `TDGANMultiDModel.optimize_parameters` (lines 265-278):
forward pass, then the discriminator update, then the generator update. -/
def optimize_parameters (s : MState) : MState := gPhase (dPhase (forwardM s))

/-! Initialization and checkpoint loading (`__init__` lines 73-86 and
`load_prev_model` lines 104-119). -/

/-- Generator weights at initialization time, plus a flag recording whether
`load_prev_model` ran. -/
structure GenWeights where
  wGprev : ℤ
  wG : ℤ
  loadedPrev : Bool
  deriving Repr, DecidableEq

/-- The checkpoint path built by `load_prev_model`:
`'{:s}/{:d}_net_G.pth'.format(opt.prev_model_path, opt.prev_model_epoch)`. -/
def ckptPath (opt : Opt) : String :=
  opt.prev_model_path ++ "/" ++ toString opt.prev_model_epoch ++ "_net_G.pth"

/-- Modelled from the spec: the checkpoint loader (`torch.load`, external).
Given a filesystem (mapping of paths to stored generator state dicts, here
a single weight), return the state dict, or raise (error) when the file is
missing. -/
def torchLoad (fs : String → Option ℤ) (path : String) : Except String ℤ :=
  match fs path with
  | some sd => Except.ok sd
  | none => Except.error path

/-- Model of `TDGANMultiDModel.load_prev_model` (lines 104-119):
`nets = [netG_prev, netG]`, with the SAME checkpoint path for both; load
the state dict into each in order.  A missing file makes `torch.load`
raise, which propagates (fatal). -/
def load_prev_model (fs : String → Option ℤ) (opt : Opt) (g : GenWeights) :
    Except String GenWeights := do
  let sd0 ← torchLoad fs (ckptPath opt)
  let sd1 ← torchLoad fs (ckptPath opt)
  Except.ok { g with wGprev := sd0, wG := sd1, loadedPrev := true }

/-- Model of the network set-up part of `TDGANMultiDModel.__init__`
(lines 73-86): `define_G` gives both generators their fresh random
initializations, then `load_prev_model` is called only when
`self.isTrain and self.opt.prev_model_path` — an empty path (the default)
is falsy, so the load is skipped with no further check. -/
def initNets (fs : String → Option ℤ) (opt : Opt) (initG initGprev : ℤ) :
    Except String GenWeights :=
  let g : GenWeights := ⟨initGprev, initG, false⟩
  if opt.isTrain = true ∧ opt.prev_model_path ≠ "" then
    load_prev_model fs opt g
  else
    Except.ok g

/-! Helper lemmas. -/

theorem Tzero_Tadd (a : T) : Tadd Tzero a = a := by
  cases a; simp [Tadd, Tzero, constT]

theorem accStep_go (l : List T) (a : T) :
    l.foldl accStep (some a) = some (l.foldl Tadd a) := by
  induction l generalizing a with
  | nil => rfl
  | cons b l ih => simpa [accStep] using ih (Tadd a b)

theorem sumLosses_cons (a : T) (l : List T) :
    sumLosses (a :: l) = some (l.foldl Tadd a) := by
  simp [sumLosses, List.foldl, accStep, accStep_go]

theorem listSumT_cons (a : T) (l : List T) : listSumT (a :: l) = l.foldl Tadd a := by
  simp [listSumT, List.foldl, Tzero_Tadd]

theorem sumLosses_eq_listSumT (l : List T) (h : l ≠ []) :
    sumLosses l = some (listSumT l) := by
  cases l with
  | nil => exact absurd rfl h
  | cons a l => rw [sumLosses_cons, listSumT_cons]

theorem sumLosses_getD (l : List T) (h : l ≠ []) :
    (sumLosses l).getD Tzero = listSumT l := by
  rw [sumLosses_eq_listSumT l h]; rfl

theorem curIdx_def (t : ℕ) : curIdx t = [2 * t - 2, 2 * t - 2 + 1] := rfl

theorem curIdx_eq (t : ℕ) (h : 1 ≤ t) : curIdx t = [2 * t - 2, 2 * t - 1] := by
  rw [curIdx_def]
  have h2 : 2 * t - 2 + 1 = 2 * t - 1 := by omega
  rw [h2]

/-! Field-preservation lemmas: which state fields each phase of the
training step leaves untouched. -/

@[simp] theorem forwardM_opt (s : MState) : (forwardM s).opt = s.opt := by
  simp only [forwardM]; split <;> rfl

@[simp] theorem forwardM_wG (s : MState) : (forwardM s).wG = s.wG := by
  simp only [forwardM]; split <;> rfl

@[simp] theorem forwardM_wGprev (s : MState) : (forwardM s).wGprev = s.wGprev := by
  simp only [forwardM]; split <;> rfl

@[simp] theorem forwardM_vD0 (s : MState) : (forwardM s).vD0 = s.vD0 := by
  simp only [forwardM]; split <;> rfl

@[simp] theorem forwardM_vD1 (s : MState) : (forwardM s).vD1 = s.vD1 := by
  simp only [forwardM]; split <;> rfl

@[simp] theorem forwardM_gradWG (s : MState) : (forwardM s).gradWG = s.gradWG := by
  simp only [forwardM]; split <;> rfl

@[simp] theorem forwardM_gradWGprev (s : MState) :
    (forwardM s).gradWGprev = s.gradWGprev := by
  simp only [forwardM]; split <;> rfl

@[simp] theorem forwardM_gradV0 (s : MState) : (forwardM s).gradV0 = s.gradV0 := by
  simp only [forwardM]; split <;> rfl

@[simp] theorem forwardM_gradV1 (s : MState) : (forwardM s).gradV1 = s.gradV1 := by
  simp only [forwardM]; split <;> rfl

@[simp] theorem backward_DM_opt (s : MState) : (backward_DM s).opt = s.opt := rfl

@[simp] theorem backward_DM_wG (s : MState) : (backward_DM s).wG = s.wG := rfl

@[simp] theorem backward_DM_wGprev (s : MState) :
    (backward_DM s).wGprev = s.wGprev := rfl

@[simp] theorem backward_DM_vD0 (s : MState) : (backward_DM s).vD0 = s.vD0 := rfl

@[simp] theorem backward_DM_vD1 (s : MState) : (backward_DM s).vD1 = s.vD1 := rfl

@[simp] theorem backward_DM_fake_B (s : MState) :
    (backward_DM s).fake_B = s.fake_B := rfl

@[simp] theorem backward_GM_opt (s : MState) : (backward_GM s).opt = s.opt := rfl

@[simp] theorem backward_GM_wG (s : MState) : (backward_GM s).wG = s.wG := rfl

@[simp] theorem backward_GM_wGprev (s : MState) :
    (backward_GM s).wGprev = s.wGprev := rfl

@[simp] theorem backward_GM_vD0 (s : MState) : (backward_GM s).vD0 = s.vD0 := rfl

@[simp] theorem backward_GM_vD1 (s : MState) : (backward_GM s).vD1 = s.vD1 := rfl

@[simp] theorem backward_GM_fake_B (s : MState) :
    (backward_GM s).fake_B = s.fake_B := rfl

@[simp] theorem dPhase_opt (s : MState) : (dPhase s).opt = s.opt := rfl

@[simp] theorem dPhase_wG (s : MState) : (dPhase s).wG = s.wG := rfl

@[simp] theorem dPhase_wGprev (s : MState) : (dPhase s).wGprev = s.wGprev := rfl

@[simp] theorem dPhase_fake_B (s : MState) : (dPhase s).fake_B = s.fake_B := rfl

@[simp] theorem gPhase_opt (s : MState) : (gPhase s).opt = s.opt := rfl

@[simp] theorem gPhase_wGprev (s : MState) : (gPhase s).wGprev = s.wGprev := rfl

@[simp] theorem gPhase_vD0 (s : MState) : (gPhase s).vD0 = s.vD0 := rfl

@[simp] theorem gPhase_vD1 (s : MState) : (gPhase s).vD1 = s.vD1 := rfl

@[simp] theorem gPhase_fake_B (s : MState) : (gPhase s).fake_B = s.fake_B := rfl

@[simp] theorem gPhase_rgD (s : MState) : (gPhase s).rgD = false := rfl

/-! Tensors carrying no derivative with respect to either discriminator
parameter.  Used to show the generator step accumulates no discriminator
gradient once `set_requires_grad(netD, False)` has run. -/

def dvFree (x : T) : Prop := x.dv0 = 0 ∧ x.dv1 = 0

theorem dvFree_constT (c : ℤ) : dvFree (constT c) := ⟨rfl, rfl⟩

theorem dvFree_Tzero : dvFree Tzero := dvFree_constT 0

theorem dvFree_Tadd {a b : T} (ha : dvFree a) (hb : dvFree b) :
    dvFree (Tadd a b) := by
  simp [dvFree, Tadd, ha.1, ha.2, hb.1, hb.2]

theorem dvFree_Tsmul {a : T} (c : ℤ) (ha : dvFree a) : dvFree (Tsmul c a) := by
  simp [dvFree, Tsmul, ha.1, ha.2]

theorem dvFree_applyNetG {x : T} (w : ℤ) (hx : dvFree x) :
    dvFree (applyNetG w x) := by
  simp [dvFree, applyNetG, hx.1, hx.2]

theorem dvFree_applyNetGprev {x : T} (w : ℤ) (hx : dvFree x) :
    dvFree (applyNetGprev w x) := by
  simp [dvFree, applyNetGprev, hx.1, hx.2]

theorem dvFree_applyNetD_false {ab : PairT} (p : ℕ) (v : ℤ)
    (ha : dvFree ab.pa) (hb : dvFree ab.pb) :
    dvFree (applyNetD p v false ab) := by
  simp [dvFree, applyNetD, ha.1, ha.2, hb.1, hb.2]

theorem dvFree_criterionGAN {pred : T} (tb : Bool) (h : dvFree pred) :
    dvFree (criterionGAN pred tb) := by
  simp [dvFree, criterionGAN, h.1, h.2]

theorem dvFree_criterionL1 {a b : T} (ha : dvFree a) (hb : dvFree b) :
    dvFree (criterionL1 a b) := by
  simp [dvFree, criterionL1, ha.1, ha.2, hb.1, hb.2]

theorem dvFree_vgg_model {x : T} (hx : dvFree x) : dvFree (vgg_model x) :=
  dvFree_Tsmul 2 hx

theorem dvFree_criterion_perceptual {a b : T} (ha : dvFree a) (hb : dvFree b) :
    dvFree (criterion_perceptual a b) := by
  simp [dvFree, criterion_perceptual, ha.1, ha.2, hb.1, hb.2]

theorem dvFree_getD {l : List T} {d : T} (n : ℕ)
    (hl : ∀ x ∈ l, dvFree x) (hd : dvFree d) : dvFree (l.getD n d) := by
  rw [List.getD_eq_getElem?_getD]
  cases hx : l[n]? with
  | none => simpa [hx] using hd
  | some x =>
    have hm : x ∈ l := by
      have := List.getElem?_eq_some_iff.mp hx
      obtain ⟨hlt, he⟩ := this
      exact he ▸ List.getElem_mem hlt
    simpa [hx] using hl x hm

theorem dvFree_foldl {l : List T} {a : T} (hl : ∀ x ∈ l, dvFree x)
    (ha : dvFree a) : dvFree (l.foldl Tadd a) := by
  induction l generalizing a with
  | nil => exact ha
  | cons b l ih =>
    exact ih (fun x hx => hl x (List.mem_cons_of_mem b hx))
      (dvFree_Tadd ha (hl b (List.mem_cons_self b l)))

theorem dvFree_sumLosses_getD {l : List T} (hl : ∀ x ∈ l, dvFree x) :
    dvFree ((sumLosses l).getD Tzero) := by
  cases l with
  | nil => exact dvFree_Tzero
  | cons a l =>
    rw [sumLosses_getD _ (List.cons_ne_nil a l), listSumT_cons]
    exact dvFree_foldl (fun x hx => hl x (List.mem_cons_of_mem a hx))
      (hl a (List.mem_cons_self a l))

theorem dvFree_ganTerm {s : MState} (i : ℕ) (hrg : s.rgD = false)
    (hfb : ∀ x ∈ s.fake_B, dvFree x) : dvFree (ganTerm s i) := by
  unfold ganTerm
  rw [hrg]
  exact dvFree_criterionGAN _
    (dvFree_applyNetD_false _ _ (dvFree_constT _) (dvFree_getD _ hfb dvFree_Tzero))

theorem dvFree_l1Term {s : MState} (i : ℕ)
    (hfb : ∀ x ∈ s.fake_B, dvFree x) : dvFree (l1Term s i) :=
  dvFree_criterionL1 (dvFree_getD _ hfb dvFree_Tzero) (dvFree_constT _)

theorem dvFree_percTerm {s : MState} (i : ℕ)
    (hfb : ∀ x ∈ s.fake_B, dvFree x) : dvFree (percTerm s i) :=
  dvFree_criterion_perceptual
    (dvFree_vgg_model (dvFree_getD _ hfb dvFree_Tzero))
    (dvFree_vgg_model (dvFree_constT _))

theorem dvFree_remL1Term {s : MState} (i : ℕ)
    (hc : ∀ x ∈ s.fake_B_curG, dvFree x) (hp : ∀ x ∈ s.fake_B_prevG, dvFree x) :
    dvFree (remL1Term s i) :=
  dvFree_criterionL1 (dvFree_getD _ hc dvFree_Tzero) (dvFree_getD _ hp dvFree_Tzero)

theorem dvFree_remPercTerm {s : MState} (i : ℕ)
    (hc : ∀ x ∈ s.fake_B_curG, dvFree x) (hp : ∀ x ∈ s.fake_B_prevG, dvFree x) :
    dvFree (remPercTerm s i) :=
  dvFree_criterion_perceptual
    (dvFree_vgg_model (dvFree_getD _ hc dvFree_Tzero))
    (dvFree_vgg_model (dvFree_getD _ hp dvFree_Tzero))

/-! Characterizations of what each phase computes. -/

theorem forwardM_fake_B (s : MState) :
    (forwardM s).fake_B =
      (curIdx s.opt.task_num).map (fun i => applyNetG s.wG (constT (s.real_A i))) := by
  simp only [forwardM]
  split <;> rfl

theorem forwardM_fake_B_curG (s : MState)
    (h : 1 < s.opt.task_num ∧ s.opt.no_lifelong_training = false) :
    (forwardM s).fake_B_curG =
      (prevIdx s.opt.task_num).map (fun i => applyNetG s.wG (constT (s.real_A i))) := by
  simp only [forwardM]
  rw [if_pos h]

theorem forwardM_fake_B_prevG (s : MState)
    (h : 1 < s.opt.task_num ∧ s.opt.no_lifelong_training = false) :
    (forwardM s).fake_B_prevG =
      (prevIdx s.opt.task_num).map (fun i => applyNetGprev s.wGprev (constT (s.real_A i))) := by
  simp only [forwardM]
  rw [if_pos h]

theorem forwardM_fakeB_dvFree (s : MState) :
    ∀ x ∈ (forwardM s).fake_B, dvFree x := by
  intro x hx
  rw [forwardM_fake_B] at hx
  obtain ⟨i, _, rfl⟩ := List.mem_map.mp hx
  exact dvFree_applyNetG _ (dvFree_constT _)

theorem forwardM_curG_dvFree (s : MState)
    (h : 1 < s.opt.task_num ∧ s.opt.no_lifelong_training = false) :
    ∀ x ∈ (forwardM s).fake_B_curG, dvFree x := by
  intro x hx
  rw [forwardM_fake_B_curG s h] at hx
  obtain ⟨i, _, rfl⟩ := List.mem_map.mp hx
  exact dvFree_applyNetG _ (dvFree_constT _)

theorem forwardM_prevG_dvFree (s : MState)
    (h : 1 < s.opt.task_num ∧ s.opt.no_lifelong_training = false) :
    ∀ x ∈ (forwardM s).fake_B_prevG, dvFree x := by
  intro x hx
  rw [forwardM_fake_B_prevG s h] at hx
  obtain ⟨i, _, rfl⟩ := List.mem_map.mp hx
  exact dvFree_applyNetGprev _ (dvFree_constT _)

theorem backward_GM_gradV0_eq (s : MState) :
    (backward_GM s).gradV0 = s.gradV0 + (backward_GM s).loss_G.dv0 := rfl

theorem backward_GM_gradV1_eq (s : MState) :
    (backward_GM s).gradV1 = s.gradV1 + (backward_GM s).loss_G.dv1 := rfl

theorem sumLosses_getD_map_curIdx (t : ℕ) (f : ℕ → T) :
    (sumLosses ((curIdx t).map f)).getD Tzero = listSumT ((curIdx t).map f) := by
  apply sumLosses_getD
  simp [curIdx_def]

theorem sumLosses_getD_map_prevIdx (t : ℕ) (h : 1 < t) (f : ℕ → T) :
    (sumLosses ((prevIdx t).map f)).getD Tzero = listSumT ((prevIdx t).map f) := by
  apply sumLosses_getD
  simp only [ne_eq, List.map_eq_nil_iff, prevIdx, List.range_eq_nil]
  omega

theorem backward_GM_lossG_dvFree (s : MState) (h : 1 ≤ s.opt.task_num)
    (hrg : s.rgD = false)
    (hfb : ∀ x ∈ s.fake_B, dvFree x)
    (hre : 1 < s.opt.task_num ∧ s.opt.no_lifelong_training = false →
      (∀ x ∈ s.fake_B_curG, dvFree x) ∧ (∀ x ∈ s.fake_B_prevG, dvFree x)) :
    dvFree (backward_GM s).loss_G := by
  have hgan : ∀ x ∈ (curIdx s.opt.task_num).map (fun i => ganTerm s i), dvFree x := by
    intro x hx
    obtain ⟨i, _, rfl⟩ := List.mem_map.mp hx
    exact dvFree_ganTerm i hrg hfb
  have hl1 : ∀ x ∈ (curIdx s.opt.task_num).map (fun i => l1Term s i), dvFree x := by
    intro x hx
    obtain ⟨i, _, rfl⟩ := List.mem_map.mp hx
    exact dvFree_l1Term i hfb
  have hperc : ∀ x ∈ (curIdx s.opt.task_num).map (fun i => percTerm s i), dvFree x := by
    intro x hx
    obtain ⟨i, _, rfl⟩ := List.mem_map.mp hx
    exact dvFree_percTerm i hfb
  simp only [backward_GM]
  by_cases hc : s.opt.task_num = 1 ∨ s.opt.no_lifelong_training = true
  · rw [if_pos hc]
    exact dvFree_Tsmul _ (dvFree_Tadd
      (dvFree_Tadd (dvFree_sumLosses_getD hgan)
        (dvFree_Tsmul _ (dvFree_sumLosses_getD hl1)))
      (dvFree_Tsmul _ (dvFree_sumLosses_getD hperc)))
  · have h2 : 1 < s.opt.task_num ∧ s.opt.no_lifelong_training = false := by
      push_neg at hc
      refine ⟨by omega, ?_⟩
      cases hb : s.opt.no_lifelong_training with
      | false => rfl
      | true => exact absurd hb hc.2
    rw [if_neg hc]
    rw [if_pos h2, if_pos h2]
    obtain ⟨hcur, hprev⟩ := hre h2
    have hrem : ∀ x ∈ (prevIdx s.opt.task_num).map (fun i => remL1Term s i), dvFree x := by
      intro x hx
      obtain ⟨i, _, rfl⟩ := List.mem_map.mp hx
      exact dvFree_remL1Term i hcur hprev
    have hremP : ∀ x ∈ (prevIdx s.opt.task_num).map (fun i => remPercTerm s i), dvFree x := by
      intro x hx
      obtain ⟨i, _, rfl⟩ := List.mem_map.mp hx
      exact dvFree_remPercTerm i hcur hprev
    exact dvFree_Tsmul _ (dvFree_Tadd
      (dvFree_Tadd
        (dvFree_Tadd
          (dvFree_Tadd (dvFree_sumLosses_getD hgan)
            (dvFree_Tsmul _ (dvFree_sumLosses_getD hl1)))
          (dvFree_Tsmul _ (dvFree_sumLosses_getD hperc)))
        (dvFree_Tsmul _ (dvFree_sumLosses_getD hrem)))
      (dvFree_Tsmul _ (dvFree_sumLosses_getD hremP)))

theorem forwardM_trace (s : MState) :
    (forwardM s).trace =
      s.trace ++ ((curIdx s.opt.task_num).map (fun i => Ev.gfwd i) ++
        (if 1 < s.opt.task_num ∧ s.opt.no_lifelong_training = false then
          (prevIdx s.opt.task_num).flatMap (fun i => [Ev.gfwd i, Ev.gpfwd i])
        else [])) := by
  simp only [forwardM]
  split
  next h => simp [List.append_assoc]
  next h => simp

theorem backward_DM_trace (s : MState) :
    (backward_DM s).trace =
      s.trace ++ (curIdx s.opt.task_num).flatMap
        (fun i => [Ev.dfwd (i % 2), Ev.dfwd (i % 2)]) := rfl

theorem backward_GM_trace (s : MState) :
    (backward_GM s).trace =
      s.trace ++ (curIdx s.opt.task_num).map (fun i => Ev.dfwd (i % 2)) := rfl

theorem dPhase_trace (s : MState) :
    (dPhase s).trace =
      (s.trace ++ (curIdx s.opt.task_num).flatMap
        (fun i => [Ev.dfwd (i % 2), Ev.dfwd (i % 2)])) ++ [Ev.dstep 0, Ev.dstep 1] := rfl

theorem gPhase_trace (s : MState) :
    (gPhase s).trace =
      (s.trace ++ (curIdx s.opt.task_num).map (fun i => Ev.dfwd (i % 2))) ++ [Ev.gstep] := rfl

/-! The claims. -/

/-- C5.  The frozen previous-task generator's parameters are bit-identical
before and after any number of `optimize_parameters` calls: no optimizer
holds them (`optimizer_G` is built from `netG.parameters()` only, and each
`optimizer_D[p]` from `netD[p].parameters()`), and no phase of the step
assigns them. -/
theorem frozen_generator_params_fixed (n : ℕ) (s : MState) :
    (optimize_parameters^[n] s).wGprev = s.wGprev := by
  induction n with
  | zero => rfl
  | succ n ih =>
    rw [Function.iterate_succ_apply']
    simpa [optimize_parameters] using ih

/-! Tensors carrying no derivative with respect to either generator
parameter; the discriminator step only ever sees such tensors because the
fake pairs are detached and the real pairs are batch constants. -/

def dgFree (x : T) : Prop := x.dwG = 0 ∧ x.dwGp = 0

theorem dgFree_constT (c : ℤ) : dgFree (constT c) := ⟨rfl, rfl⟩

theorem dgFree_Tzero : dgFree Tzero := dgFree_constT 0

theorem dgFree_Tadd {a b : T} (ha : dgFree a) (hb : dgFree b) :
    dgFree (Tadd a b) := by
  simp [dgFree, Tadd, ha.1, ha.2, hb.1, hb.2]

theorem dgFree_Tsmul {a : T} (c : ℤ) (ha : dgFree a) : dgFree (Tsmul c a) := by
  simp [dgFree, Tsmul, ha.1, ha.2]

theorem dgFree_criterionGAN {pred : T} (tb : Bool) (h : dgFree pred) :
    dgFree (criterionGAN pred tb) := by
  simp [dgFree, criterionGAN, h.1, h.2]

theorem dgFree_foldl {l : List T} {a : T} (hl : ∀ x ∈ l, dgFree x)
    (ha : dgFree a) : dgFree (l.foldl Tadd a) := by
  induction l generalizing a with
  | nil => exact ha
  | cons b l ih =>
    exact ih (fun x hx => hl x (List.mem_cons_of_mem b hx))
      (dgFree_Tadd ha (hl b (List.mem_cons_self b l)))

theorem dgFree_sumLosses_getD {l : List T} (hl : ∀ x ∈ l, dgFree x) :
    dgFree ((sumLosses l).getD Tzero) := by
  cases l with
  | nil => exact dgFree_Tzero
  | cons a l =>
    rw [sumLosses_getD _ (List.cons_ne_nil a l), listSumT_cons]
    exact dgFree_foldl (fun x hx => hl x (List.mem_cons_of_mem a hx))
      (hl a (List.mem_cons_self a l))

theorem dgFree_fakeDTerm (s : MState) (i : ℕ) : dgFree (fakeDTerm s i) := by
  simp [dgFree, fakeDTerm, criterionGAN, applyNetD, detachP, detach, catT, constT]

theorem dgFree_realDTerm (s : MState) (i : ℕ) : dgFree (realDTerm s i) := by
  simp [dgFree, realDTerm, criterionGAN, applyNetD, catT, constT]

theorem backward_DM_gradWG_eq (s : MState) :
    (backward_DM s).gradWG = s.gradWG + (backward_DM s).loss_D.dwG := rfl

theorem backward_DM_gradWGprev_eq (s : MState) :
    (backward_DM s).gradWGprev = s.gradWGprev + (backward_DM s).loss_D.dwGp := rfl

theorem backward_DM_loss_D_eq (s : MState) :
    (backward_DM s).loss_D =
      Tsmul s.opt.lambda_D
        (Tadd ((sumLosses ((curIdx s.opt.task_num).map (fun i => fakeDTerm s i))).getD Tzero)
          ((sumLosses ((curIdx s.opt.task_num).map (fun i => realDTerm s i))).getD Tzero)) := rfl

theorem backward_DM_lossD_dgFree (s : MState) : dgFree (backward_DM s).loss_D := by
  rw [backward_DM_loss_D_eq]
  refine dgFree_Tsmul _ (dgFree_Tadd ?_ ?_) <;>
    refine dgFree_sumLosses_getD ?_ <;>
    intro x hx
  · obtain ⟨i, _, rfl⟩ := List.mem_map.mp hx
    exact dgFree_fakeDTerm _ i
  · obtain ⟨i, _, rfl⟩ := List.mem_map.mp hx
    exact dgFree_realDTerm _ i

/-- C6.  During the discriminator step (`set_requires_grad(netD, True)`,
zero the D optimizers, `backward_D`, step the D optimizers), the generator
parameters receive no gradient: the fake conditioning pair is detached
before discriminator evaluation, so the discriminator backward pass leaves
the generator's gradient accumulator — and a fortiori its parameters —
unchanged (and likewise for the frozen generator). -/
theorem generator_gets_no_gradient_from_D_step (s : MState) :
    (dPhase s).gradWG = s.gradWG ∧ (dPhase s).wG = s.wG ∧
    (dPhase s).gradWGprev = s.gradWGprev ∧ (dPhase s).wGprev = s.wGprev := by
  have hd := backward_DM_lossD_dgFree { s with rgD := true, gradV0 := 0, gradV1 := 0 }
  refine ⟨?_, rfl, ?_, rfl⟩
  · have e : (dPhase s).gradWG =
        (backward_DM { s with rgD := true, gradV0 := 0, gradV1 := 0 }).gradWG := rfl
    rw [e, backward_DM_gradWG_eq, hd.1, add_zero]
  · have e : (dPhase s).gradWGprev =
        (backward_DM { s with rgD := true, gradV0 := 0, gradV1 := 0 }).gradWGprev := rfl
    rw [e, backward_DM_gradWGprev_eq, hd.2, add_zero]

@[simp] theorem dPhase_fake_B_curG (s : MState) :
    (dPhase s).fake_B_curG = s.fake_B_curG := rfl

@[simp] theorem dPhase_fake_B_prevG (s : MState) :
    (dPhase s).fake_B_prevG = s.fake_B_prevG := rfl

/-- C7.  During the generator step (`set_requires_grad(netD, False)`, zero
the generator optimizer, `backward_G`, step the generator optimizer), the
discriminator parameters are frozen: their `requires_grad` flag is false,
their gradient accumulators are unchanged by the generator backward pass,
and both discriminator weights (and the frozen generator weight) are
identical before and after the step — only `netG`'s parameter is
updated. -/
theorem discriminator_frozen_during_G_step (s : MState) (h : 1 ≤ s.opt.task_num) :
    (gPhase (dPhase (forwardM s))).vD0 = (dPhase (forwardM s)).vD0 ∧
    (gPhase (dPhase (forwardM s))).vD1 = (dPhase (forwardM s)).vD1 ∧
    (gPhase (dPhase (forwardM s))).gradV0 = (dPhase (forwardM s)).gradV0 ∧
    (gPhase (dPhase (forwardM s))).gradV1 = (dPhase (forwardM s)).gradV1 ∧
    (gPhase (dPhase (forwardM s))).rgD = false ∧
    (gPhase (dPhase (forwardM s))).wGprev = (dPhase (forwardM s)).wGprev := by
  have hdv : dvFree (backward_GM
      { dPhase (forwardM s) with rgD := false, gradWG := 0 }).loss_G := by
    apply backward_GM_lossG_dvFree
    · show 1 ≤ (dPhase (forwardM s)).opt.task_num
      simpa using h
    · rfl
    · show ∀ x ∈ (dPhase (forwardM s)).fake_B, dvFree x
      rw [dPhase_fake_B]
      exact forwardM_fakeB_dvFree s
    · intro hcond
      have hcs : 1 < s.opt.task_num ∧ s.opt.no_lifelong_training = false := by
        simpa using hcond
      constructor
      · show ∀ x ∈ (dPhase (forwardM s)).fake_B_curG, dvFree x
        rw [dPhase_fake_B_curG]
        exact forwardM_curG_dvFree s hcs
      · show ∀ x ∈ (dPhase (forwardM s)).fake_B_prevG, dvFree x
        rw [dPhase_fake_B_prevG]
        exact forwardM_prevG_dvFree s hcs
  refine ⟨rfl, rfl, ?_, ?_, rfl, rfl⟩
  · have e : (gPhase (dPhase (forwardM s))).gradV0 =
        (backward_GM { dPhase (forwardM s) with rgD := false, gradWG := 0 }).gradV0 := rfl
    rw [e, backward_GM_gradV0_eq, hdv.1, add_zero]
  · have e : (gPhase (dPhase (forwardM s))).gradV1 =
        (backward_GM { dPhase (forwardM s) with rgD := false, gradWG := 0 }).gradV1 := rfl
    rw [e, backward_GM_gradV1_eq, hdv.2, add_zero]

theorem backward_GM_loss_G_digesting (s : MState)
    (hc : s.opt.task_num = 1 ∨ s.opt.no_lifelong_training = true) :
    (backward_GM s).loss_G =
      Tsmul s.opt.lambda_G
        (Tadd (Tadd (listSumT ((curIdx s.opt.task_num).map (fun i => ganTerm s i)))
          (Tsmul s.opt.lambda_digesting_L1
            (listSumT ((curIdx s.opt.task_num).map (fun i => l1Term s i)))))
          (Tsmul s.opt.lambda_digesting_perceptual
            (listSumT ((curIdx s.opt.task_num).map (fun i => percTerm s i))))) := by
  simp only [backward_GM]
  rw [if_pos hc, sumLosses_getD_map_curIdx, sumLosses_getD_map_curIdx,
    sumLosses_getD_map_curIdx]

theorem backward_GM_loss_G_retention (s : MState)
    (h2 : 1 < s.opt.task_num ∧ s.opt.no_lifelong_training = false) :
    (backward_GM s).loss_G =
      Tsmul s.opt.lambda_G
        (Tadd (Tadd (Tadd (Tadd (listSumT ((curIdx s.opt.task_num).map (fun i => ganTerm s i)))
          (Tsmul s.opt.lambda_digesting_L1
            (listSumT ((curIdx s.opt.task_num).map (fun i => l1Term s i)))))
          (Tsmul s.opt.lambda_digesting_perceptual
            (listSumT ((curIdx s.opt.task_num).map (fun i => percTerm s i)))))
          (Tsmul s.opt.lambda_reminding_L1
            (listSumT ((prevIdx s.opt.task_num).map (fun i => remL1Term s i)))))
          (Tsmul s.opt.lambda_reminding_perceptual
            (listSumT ((prevIdx s.opt.task_num).map (fun i => remPercTerm s i))))) := by
  have hc : ¬(s.opt.task_num = 1 ∨ s.opt.no_lifelong_training = true) := by
    rintro (h1 | h1)
    · omega
    · rw [h2.2] at h1
      exact Bool.false_ne_true h1
  simp only [backward_GM]
  rw [if_neg hc, if_pos h2, if_pos h2, sumLosses_getD_map_curIdx,
    sumLosses_getD_map_curIdx, sumLosses_getD_map_curIdx,
    sumLosses_getD_map_prevIdx _ h2.1, sumLosses_getD_map_prevIdx _ h2.1]

theorem backward_GM_loss_reminding_L1 (s : MState) :
    (backward_GM s).loss_reminding_L1 =
      if 1 < s.opt.task_num ∧ s.opt.no_lifelong_training = false then
        some ((prevIdx s.opt.task_num).map (fun i => remL1Term s i))
      else s.loss_reminding_L1 := rfl

theorem backward_GM_loss_reminding_perceptual (s : MState) :
    (backward_GM s).loss_reminding_perceptual =
      if 1 < s.opt.task_num ∧ s.opt.no_lifelong_training = false then
        some ((prevIdx s.opt.task_num).map (fun i => remPercTerm s i))
      else s.loss_reminding_perceptual := rfl

/-- C3.  The composed generator loss is exactly the documented weighted
sum: without retention (`task_num == 1 or no_lifelong_training`),
`loss_G = (adv + L1*lambda_digesting_L1 + perceptual*lambda_digesting_perceptual) * lambda_G`;
with retention it additionally contains
`retention_L1*lambda_reminding_L1 + retention_perceptual*lambda_reminding_perceptual`
inside the parenthesized sum — no term omitted or duplicated. -/
theorem loss_G_documented_weighted_sum (s : MState) (h : 1 ≤ s.opt.task_num) :
    (backward_GM s).loss_G =
      if s.opt.task_num = 1 ∨ s.opt.no_lifelong_training = true then
        Tsmul s.opt.lambda_G
          (Tadd (Tadd (listSumT ((curIdx s.opt.task_num).map (fun i => ganTerm s i)))
            (Tsmul s.opt.lambda_digesting_L1
              (listSumT ((curIdx s.opt.task_num).map (fun i => l1Term s i)))))
            (Tsmul s.opt.lambda_digesting_perceptual
              (listSumT ((curIdx s.opt.task_num).map (fun i => percTerm s i)))))
      else
        Tsmul s.opt.lambda_G
          (Tadd (Tadd (Tadd (Tadd (listSumT ((curIdx s.opt.task_num).map (fun i => ganTerm s i)))
            (Tsmul s.opt.lambda_digesting_L1
              (listSumT ((curIdx s.opt.task_num).map (fun i => l1Term s i)))))
            (Tsmul s.opt.lambda_digesting_perceptual
              (listSumT ((curIdx s.opt.task_num).map (fun i => percTerm s i)))))
            (Tsmul s.opt.lambda_reminding_L1
              (listSumT ((prevIdx s.opt.task_num).map (fun i => remL1Term s i)))))
            (Tsmul s.opt.lambda_reminding_perceptual
              (listSumT ((prevIdx s.opt.task_num).map (fun i => remPercTerm s i))))) := by
  by_cases hc : s.opt.task_num = 1 ∨ s.opt.no_lifelong_training = true
  · rw [if_pos hc]
    exact backward_GM_loss_G_digesting s hc
  · have h2 : 1 < s.opt.task_num ∧ s.opt.no_lifelong_training = false := by
      push_neg at hc
      refine ⟨by omega, ?_⟩
      cases hb : s.opt.no_lifelong_training with
      | false => rfl
      | true => exact absurd hb hc.2
    rw [if_neg hc]
    exact backward_GM_loss_G_retention s h2

/-- C4.  The reminding (retention) loss terms are computed iff
`task_num > 1` and lifelong training is not disabled; when computed they
range over exactly the `2*task_num - 2` previous-task stream indices
`[0 .. 2*task_num - 3]`; otherwise the reminding attributes are untouched
and `loss_G` depends only on the adversarial, L1 and perceptual terms. -/
theorem reminding_terms_iff (s : MState) (h : 1 ≤ s.opt.task_num) :
    if 1 < s.opt.task_num ∧ s.opt.no_lifelong_training = false then
      (backward_GM s).loss_reminding_L1 =
        some ((prevIdx s.opt.task_num).map (fun i => remL1Term s i)) ∧
      (backward_GM s).loss_reminding_perceptual =
        some ((prevIdx s.opt.task_num).map (fun i => remPercTerm s i)) ∧
      ((prevIdx s.opt.task_num).map (fun i => remL1Term s i)).length =
        2 * s.opt.task_num - 2 ∧
      ((prevIdx s.opt.task_num).map (fun i => remPercTerm s i)).length =
        2 * s.opt.task_num - 2
    else
      (backward_GM s).loss_reminding_L1 = s.loss_reminding_L1 ∧
      (backward_GM s).loss_reminding_perceptual = s.loss_reminding_perceptual ∧
      (backward_GM s).loss_G =
        Tsmul s.opt.lambda_G
          (Tadd (Tadd (listSumT ((curIdx s.opt.task_num).map (fun i => ganTerm s i)))
            (Tsmul s.opt.lambda_digesting_L1
              (listSumT ((curIdx s.opt.task_num).map (fun i => l1Term s i)))))
            (Tsmul s.opt.lambda_digesting_perceptual
              (listSumT ((curIdx s.opt.task_num).map (fun i => percTerm s i))))) := by
  by_cases hcond : 1 < s.opt.task_num ∧ s.opt.no_lifelong_training = false
  · rw [if_pos hcond]
    refine ⟨?_, ?_, by simp [prevIdx], by simp [prevIdx]⟩
    · rw [backward_GM_loss_reminding_L1, if_pos hcond]
    · rw [backward_GM_loss_reminding_perceptual, if_pos hcond]
  · rw [if_neg hcond]
    have hc : s.opt.task_num = 1 ∨ s.opt.no_lifelong_training = true := by
      by_cases h1 : s.opt.task_num = 1
      · exact Or.inl h1
      · refine Or.inr ?_
        cases hb : s.opt.no_lifelong_training with
        | true => rfl
        | false => exact absurd ⟨by omega, hb⟩ hcond
    refine ⟨?_, ?_, backward_GM_loss_G_digesting s hc⟩
    · rw [backward_GM_loss_reminding_L1, if_neg hcond]
    · rw [backward_GM_loss_reminding_perceptual, if_neg hcond]

/-- C8.  The total discriminator loss is exactly
`(sum of the two fake-label losses + sum of the two real-label losses) * lambda_D`,
with one fake term and one real term for each of the two current-task
stream indices `2*task_num - 2` and `2*task_num - 1`, where the fake term
evaluates discriminator `i % 2` on the detached (source, generated) pair
with label FAKE and the real term evaluates the same discriminator on the
(source, real target) pair with label REAL; the two parities resolve to
discriminators 0 and 1. -/
theorem loss_D_documented_weighted_sum (s : MState) (h : 1 ≤ s.opt.task_num) :
    (backward_DM s).loss_D =
      Tsmul s.opt.lambda_D
        (Tadd (Tadd (fakeDTerm s (2 * s.opt.task_num - 2))
            (fakeDTerm s (2 * s.opt.task_num - 1)))
          (Tadd (realDTerm s (2 * s.opt.task_num - 2))
            (realDTerm s (2 * s.opt.task_num - 1)))) ∧
    (2 * s.opt.task_num - 2) % 2 = 0 ∧ (2 * s.opt.task_num - 1) % 2 = 1 := by
  refine ⟨?_, by omega, by omega⟩
  rw [backward_DM_loss_D_eq, curIdx_eq _ h]
  simp [sumLosses_cons, List.foldl, Option.getD]

/-- C9.  Within every `optimize_parameters` cycle the discriminator update
strictly precedes the generator update: the trace of one cycle is the
generator (and frozen-generator) forward passes, then the four
discriminator evaluations of `backward_D`, then the two discriminator
optimizer steps, then the two gradient-carrying discriminator
re-evaluations of `backward_G`, and finally the generator optimizer step;
moreover the generator step reuses the images of the single forward pass
(`fake_B` is unchanged after the forward pass — no second generator
forward). -/
theorem d_update_precedes_g_update (s : MState) :
    (optimize_parameters s).trace =
      s.trace ++
        (((curIdx s.opt.task_num).map (fun i => Ev.gfwd i) ++
          (if 1 < s.opt.task_num ∧ s.opt.no_lifelong_training = false then
            (prevIdx s.opt.task_num).flatMap (fun i => [Ev.gfwd i, Ev.gpfwd i])
          else [])) ++
          ([Ev.dfwd 0, Ev.dfwd 0, Ev.dfwd 1, Ev.dfwd 1] ++ [Ev.dstep 0, Ev.dstep 1] ++
            ([Ev.dfwd 0, Ev.dfwd 1] ++ [Ev.gstep]))) ∧
    (optimize_parameters s).fake_B = (forwardM s).fake_B := by
  constructor
  · show (gPhase (dPhase (forwardM s))).trace = _
    rw [gPhase_trace]
    simp only [dPhase_opt, forwardM_opt]
    rw [dPhase_trace]
    simp only [forwardM_opt]
    rw [forwardM_trace]
    have e0 : (2 * s.opt.task_num - 2) % 2 = 0 := by omega
    have e1 : (2 * s.opt.task_num - 2 + 1) % 2 = 1 := by omega
    simp [curIdx_def, e0, e1, List.append_assoc]
  · show (gPhase (dPhase (forwardM s))).fake_B = _
    rw [gPhase_fake_B, dPhase_fake_B]

/-! Concrete instantiations used by counterexamples and witnesses. -/

/-- Options for a second task with lifelong training enabled and a
configured previous-model path; all loss weights and the learning rate are
1 for readability. -/
def optRetention : Opt := ⟨2, false, true, "prev", 400, 1, 1, 1, 1, 1, 1, 1⟩

/-- Options for a second task with lifelong training enabled but NO
previous-model path configured (the command-line default `''`). -/
def optNoPath : Opt := ⟨2, false, true, "", 400, 100, 1, 10, 1, 1, 1, 1⟩

/-- Options for a first task (`task_num = 1`). -/
def optSingle : Opt := ⟨1, false, true, "", 400, 1, 1, 1, 1, 1, 1, 1⟩

/-- A concrete second-task training state: trainable generator weight 2,
frozen generator weight 1, both discriminator weights 0, zeroed gradients,
all source images 1 and all target images 0. -/
def sRet : MState :=
  ⟨optRetention, 2, 1, 0, 0, 0, 0, 0, 0, false, (fun _ => 1), (fun _ => 0),
   [], [], [], none, none, none, none, none, none, none, none, none,
   Tzero, Tzero, []⟩

/-- A concrete first-task training state. -/
def sSingle : MState :=
  ⟨optSingle, 2, 1, 3, 4, 0, 0, 0, 0, false, (fun _ => 1), (fun _ => 0),
   [], [], [], none, none, none, none, none, none, none, none, none,
   Tzero, Tzero, []⟩

/-- A filesystem holding exactly the checkpoint `prev/400_net_G.pth` with
stored generator weight 9. -/
def fsOne : String → Option ℤ := fun p => if p = "prev/400_net_G.pth" then some 9 else none

/-- C1 counterexample.  At a concrete second-task state with lifelong
training enabled, one `optimize_parameters` call changes the frozen
generator's gradient accumulator: the retention terms are built from the
non-detached `netG_prev` outputs, so `loss_G.backward()` does compute a
gradient through the frozen generator — there is no stop-gradient
boundary. -/
theorem no_stop_gradient_boundary_counterexample :
    1 < sRet.opt.task_num ∧ sRet.opt.no_lifelong_training = false ∧
    (optimize_parameters sRet).gradWGprev ≠ sRet.gradWGprev :=
  ⟨by decide, by decide, by decide⟩

/-- C1 amended.  The generator backward pass does compute gradients
through the frozen previous-task generator (its outputs are not detached
and its parameters require grad), but the frozen generator's parameters
are nevertheless left unchanged by every `optimize_parameters` call,
because no optimizer holds them; at the concrete state `sRet` the
accumulated frozen-generator gradient is the true derivative -18. -/
theorem frozen_generator_grad_computed_but_never_applied :
    (∀ s : MState, 1 < s.opt.task_num → s.opt.no_lifelong_training = false →
      (optimize_parameters s).wGprev = s.wGprev) ∧
    (optimize_parameters sRet).gradWGprev = -18 := by
  constructor
  · intro s _ _
    simp [optimize_parameters]
  · decide

/-- Witness for the C1 amended theorem at the concrete state `sRet`. -/
theorem frozen_generator_grad_computed_but_never_applied_witness :
    (optimize_parameters sRet).wGprev = sRet.wGprev :=
  frozen_generator_grad_computed_but_never_applied.1 sRet (by decide) (by decide)

/-- C2 counterexample.  With `task_num = 2`, lifelong training enabled and
an empty `prev_model_path` (the default), initialization returns
successfully and `load_prev_model` never runs: the inconsistent
configuration is silently skipped, not a fatal error. -/
theorem missing_prev_path_not_fatal_counterexample :
    1 < optNoPath.task_num ∧ optNoPath.no_lifelong_training = false ∧
    optNoPath.isTrain = true ∧ optNoPath.prev_model_path = "" ∧
    initNets (fun _ => none) optNoPath 7 5 = Except.ok ⟨5, 7, false⟩ :=
  ⟨by decide, rfl, rfl, rfl, rfl⟩

/-- C2 amended.  Initialization guards the load only on
`isTrain and prev_model_path`: with an empty path it silently skips the
load and returns the fresh random initializations — regardless of
`task_num` — while with a non-empty path whose checkpoint file is missing
`torch.load` raises and startup halts. -/
theorem init_empty_path_skips_nonempty_path_fatal (fs : String → Option ℤ)
    (opt : Opt) (a b : ℤ) (hT : opt.isTrain = true) :
    (opt.prev_model_path = "" → initNets fs opt a b = Except.ok ⟨b, a, false⟩) ∧
    (opt.prev_model_path ≠ "" → fs (ckptPath opt) = none →
      initNets fs opt a b = Except.error (ckptPath opt)) := by
  constructor
  · intro hp
    simp [initNets, hp]
  · intro hp hf
    simp only [initNets, hT, hp, ne_eq, not_false_iff, and_self, if_pos,
      load_prev_model, torchLoad, hf]
    rfl

/-- Witness for the C2 amended theorem: the silent-skip branch at the
concrete configuration `optNoPath`, and the fatal branch at `optRetention`
over an empty filesystem. -/
theorem init_empty_path_skips_nonempty_path_fatal_witness :
    initNets (fun _ => none) optNoPath 7 5 = Except.ok ⟨5, 7, false⟩ ∧
    initNets (fun _ => none) optRetention 7 5 =
      Except.error (ckptPath optRetention) :=
  ⟨(init_empty_path_skips_nonempty_path_fatal (fun _ => none) optNoPath 7 5 rfl).1 rfl,
   (init_empty_path_skips_nonempty_path_fatal (fun _ => none) optRetention 7 5 rfl).2
     (by decide) rfl⟩

/-- C10.  When a previous-model path is configured (training mode,
non-empty path), `load_prev_model` loads the single checkpoint
`{prev_model_path}/{prev_model_epoch}_net_G.pth` into BOTH the frozen
previous-task generator and the trainable generator: after initialization
both carry the stored weight, so the trainable generator starts the new
task from the previous task's learned weights, not from its fresh random
initialization. -/
theorem load_prev_model_initializes_both (fs : String → Option ℤ) (opt : Opt)
    (a b w : ℤ) (hT : opt.isTrain = true) (hp : opt.prev_model_path ≠ "")
    (hfs : fs (ckptPath opt) = some w) :
    initNets fs opt a b = Except.ok ⟨w, w, true⟩ := by
  simp only [initNets, hT, hp, ne_eq, not_false_iff, and_self, if_pos,
    load_prev_model, torchLoad, hfs]
  rfl

/-- Witness for C10 at the concrete filesystem `fsOne`: the stored weight
9 ends up in both generators, replacing the fresh initializations 7 and
5. -/
theorem load_prev_model_initializes_both_witness :
    initNets fsOne optRetention 7 5 = Except.ok ⟨9, 9, true⟩ :=
  load_prev_model_initializes_both fsOne optRetention 7 5 9 rfl (by decide) rfl

/-- Witness for C3 at the concrete first-task state `sSingle`. -/
theorem loss_G_documented_weighted_sum_witness :
    1 ≤ sSingle.opt.task_num ∧
    ((backward_GM sSingle).loss_G =
      if sSingle.opt.task_num = 1 ∨ sSingle.opt.no_lifelong_training = true then
        Tsmul sSingle.opt.lambda_G
          (Tadd (Tadd (listSumT ((curIdx sSingle.opt.task_num).map (fun i => ganTerm sSingle i)))
            (Tsmul sSingle.opt.lambda_digesting_L1
              (listSumT ((curIdx sSingle.opt.task_num).map (fun i => l1Term sSingle i)))))
            (Tsmul sSingle.opt.lambda_digesting_perceptual
              (listSumT ((curIdx sSingle.opt.task_num).map (fun i => percTerm sSingle i)))))
      else
        Tsmul sSingle.opt.lambda_G
          (Tadd (Tadd (Tadd (Tadd (listSumT ((curIdx sSingle.opt.task_num).map (fun i => ganTerm sSingle i)))
            (Tsmul sSingle.opt.lambda_digesting_L1
              (listSumT ((curIdx sSingle.opt.task_num).map (fun i => l1Term sSingle i)))))
            (Tsmul sSingle.opt.lambda_digesting_perceptual
              (listSumT ((curIdx sSingle.opt.task_num).map (fun i => percTerm sSingle i)))))
            (Tsmul sSingle.opt.lambda_reminding_L1
              (listSumT ((prevIdx sSingle.opt.task_num).map (fun i => remL1Term sSingle i)))))
            (Tsmul sSingle.opt.lambda_reminding_perceptual
              (listSumT ((prevIdx sSingle.opt.task_num).map (fun i => remPercTerm sSingle i)))))) :=
  ⟨by decide, loss_G_documented_weighted_sum sSingle (by decide)⟩

/-- Witness for C4 at the concrete first-task state `sSingle`. -/
theorem reminding_terms_iff_witness :
    1 ≤ sSingle.opt.task_num ∧
    (if 1 < sSingle.opt.task_num ∧ sSingle.opt.no_lifelong_training = false then
      (backward_GM sSingle).loss_reminding_L1 =
        some ((prevIdx sSingle.opt.task_num).map (fun i => remL1Term sSingle i)) ∧
      (backward_GM sSingle).loss_reminding_perceptual =
        some ((prevIdx sSingle.opt.task_num).map (fun i => remPercTerm sSingle i)) ∧
      ((prevIdx sSingle.opt.task_num).map (fun i => remL1Term sSingle i)).length =
        2 * sSingle.opt.task_num - 2 ∧
      ((prevIdx sSingle.opt.task_num).map (fun i => remPercTerm sSingle i)).length =
        2 * sSingle.opt.task_num - 2
    else
      (backward_GM sSingle).loss_reminding_L1 = sSingle.loss_reminding_L1 ∧
      (backward_GM sSingle).loss_reminding_perceptual = sSingle.loss_reminding_perceptual ∧
      (backward_GM sSingle).loss_G =
        Tsmul sSingle.opt.lambda_G
          (Tadd (Tadd (listSumT ((curIdx sSingle.opt.task_num).map (fun i => ganTerm sSingle i)))
            (Tsmul sSingle.opt.lambda_digesting_L1
              (listSumT ((curIdx sSingle.opt.task_num).map (fun i => l1Term sSingle i)))))
            (Tsmul sSingle.opt.lambda_digesting_perceptual
              (listSumT ((curIdx sSingle.opt.task_num).map (fun i => percTerm sSingle i)))))) :=
  ⟨by decide, reminding_terms_iff sSingle (by decide)⟩

/-- Witness for C7 at the concrete first-task state `sSingle`. -/
theorem discriminator_frozen_during_G_step_witness :
    1 ≤ sSingle.opt.task_num ∧
    ((gPhase (dPhase (forwardM sSingle))).vD0 = (dPhase (forwardM sSingle)).vD0 ∧
    (gPhase (dPhase (forwardM sSingle))).vD1 = (dPhase (forwardM sSingle)).vD1 ∧
    (gPhase (dPhase (forwardM sSingle))).gradV0 = (dPhase (forwardM sSingle)).gradV0 ∧
    (gPhase (dPhase (forwardM sSingle))).gradV1 = (dPhase (forwardM sSingle)).gradV1 ∧
    (gPhase (dPhase (forwardM sSingle))).rgD = false ∧
    (gPhase (dPhase (forwardM sSingle))).wGprev = (dPhase (forwardM sSingle)).wGprev) :=
  ⟨by decide, discriminator_frozen_during_G_step sSingle (by decide)⟩

/-- Witness for C8 at the concrete first-task state `sSingle`. -/
theorem loss_D_documented_weighted_sum_witness :
    1 ≤ sSingle.opt.task_num ∧
    ((backward_DM sSingle).loss_D =
      Tsmul sSingle.opt.lambda_D
        (Tadd (Tadd (fakeDTerm sSingle (2 * sSingle.opt.task_num - 2))
            (fakeDTerm sSingle (2 * sSingle.opt.task_num - 1)))
          (Tadd (realDTerm sSingle (2 * sSingle.opt.task_num - 2))
            (realDTerm sSingle (2 * sSingle.opt.task_num - 1)))) ∧
    (2 * sSingle.opt.task_num - 2) % 2 = 0 ∧ (2 * sSingle.opt.task_num - 1) % 2 = 1) :=
  ⟨by decide, loss_D_documented_weighted_sum sSingle (by decide)⟩

end TDGAN
